import Mathlib

/-!
Verification model of `app.py` from the hostweb repository: a Flask
application that links RFID card scans (posted by an ESP32 device) to pending
student registrations (posted by browsers), through the in-memory waiting
dictionary `WAITING_FOR_SCAN`, backed by a Google-Sheets row store.

Modelling conventions:
* `WAITING_FOR_SCAN` (a Python dict, insertion ordered) is a `Registry`:
  an association list in insertion order.  Assigning to an existing key
  updates its value in place (keeping its position); a new key is appended.
  This matches CPython dict semantics, including the iteration order seen
  by `min(WAITING_FOR_SCAN, key=...)`.
* Wall-clock times (`time.time()` values) are natural numbers.
* The Google-Sheets layer (`get_sheet`, `append_row`, `update_cell`,
  `cell(...).value`) is modelled by a `Sheet` record of call outcomes:
  an `Option Sheet` argument stands for the result of `get_sheet()`
  (`none` = connection failure), the `appendOk`/`updateOk`/`readOk` flags
  say whether each remote call succeeds, `newRowIndex` is the row index
  extracted from the append result, and `cellName r` is the value read back
  from cell (r, 2).  Cell writes performed by `update_cell` are logged as
  `CellWrite` values, and rows appended by `append_row` as `List String`
  values, so theorems can speak about what was persisted.
* The Flask `session` object is per HTTP client (cookie-backed): every
  handler receives and returns the SessionData of the client that made the
  request.  The browser and the ESP32 scanner are distinct clients and hence
  carry distinct sessions.
* A Python expression that raises an uncaught exception in the handler body
  (e.g. `None.strip()` when a form field is absent) is modelled by the
  explicit result `RegisterResult.exception`.
* Python `str.strip()` is modelled by `pyStrip`, which drops leading and
  trailing whitespace characters from the character list of the string.
-/

namespace Hostweb

/-- Python `str.strip()` with no argument: remove leading and trailing
whitespace. -/
def pyStrip (s : String) : String :=
  String.mk (((s.toList.dropWhile Char.isWhitespace).reverse.dropWhile
    Char.isWhitespace).reverse)

/-- One value of the `WAITING_FOR_SCAN` dict:
`{'name': name, 'timestamp': time.time(), 'row_index': N}` (app.py line 99). -/
structure Entry where
  name : String
  timestamp : Nat
  row_index : Nat
deriving DecidableEq

/-- The `WAITING_FOR_SCAN` dict: keys are register numbers, in insertion
order. -/
abbrev Registry := List (String × Entry)

/-- The per-client Flask `session` dict: the two keys the code uses. -/
structure SessionData where
  waiting_reg_no : Option String
  linked_reg_no : Option String
deriving DecidableEq

/-- A cell write performed through `sheet.update_cell(row, col, value)`. -/
structure CellWrite where
  row : Nat
  col : Nat
  value : String
deriving DecidableEq

/-- Outcomes of the remote Google-Sheets calls for one request:
this is the environment a handler runs against. -/
structure Sheet where
  appendOk : Bool
  newRowIndex : Nat
  updateOk : Bool
  readOk : Bool
  cellName : Nat → String

/-- `TIMEOUT_SECONDS = 300` (app.py line 19). -/
def TIMEOUT_SECONDS : Nat := 300

/-- `RFID_UID_COLUMN = 3` (app.py line 54). -/
def RFID_UID_COLUMN : Nat := 3

/-- Result of `link_uid_to_student`: the `(success, payload)` pair returned by
the Python helper, plus the log of cell writes it performed. -/
structure HelperResult where
  success : Bool
  payload : String
  writes : List CellWrite
deriving DecidableEq

/-- `link_uid_to_student(row_index, rfid_uid, name)` (app.py lines 45-64).
`sheet = get_sheet()` is the `Option Sheet` argument.  If `update_cell`
raises, no write happened; if the read-back `sheet.cell(row,2).value` raises,
the write did happen but the helper still reports failure. -/
def link_uid_to_student (sheet : Option Sheet) (row_index : Nat)
    (rfid_uid : String) (name : String) : HelperResult :=
  match sheet with
  | none => ⟨false, "Database connection failed.", []⟩
  | some s =>
    if s.updateOk then
      if s.readOk then
        ⟨true, s.cellName row_index, [⟨row_index, RFID_UID_COLUMN, rfid_uid⟩]⟩
      else
        ⟨false, "Failed to update database. Error: read failed.",
         [⟨row_index, RFID_UID_COLUMN, rfid_uid⟩]⟩
    else ⟨false, "Failed to update database. Error: update failed.", []⟩

/-- The form body of a `POST /register` request: each field is `none` when
absent from the form (then `request.form.get(...)` returns `None`). -/
structure Form where
  name : Option String
  reg_no : Option String
deriving DecidableEq

/-- Outcome of the `register` handler. -/
inductive RegisterResult where
  /-- An uncaught exception escaped the handler (`None.strip()`). -/
  | exception
  /-- `{'status':'error', 'message':'Name and Register Number are required.'}`,
  HTTP 200. -/
  | invalidInput
  /-- `{'status':'error', 'message':'Could not connect to database.'}`,
  HTTP 500. -/
  | dbConnectError
  /-- `{'status':'error', 'message':'Failed to save registration data...'}`,
  HTTP 500. -/
  | appendError
  /-- `{'status':'waiting', ...}`, HTTP 200. -/
  | waiting (reg_no : String)
deriving DecidableEq

/-- Python dict assignment `WAITING_FOR_SCAN[reg_no] = {...}` (app.py
lines 99-103): an existing key keeps its position and gets the new value,
a new key is appended at the end. -/
def insertReg (k : String) (v : Entry) : Registry → Registry
  | [] => [(k, v)]
  | p :: rest => if p.1 = k then (k, v) :: rest else p :: insertReg k v rest

/-- `WAITING_FOR_SCAN.pop(reg_no)` (the removal effect). -/
def removeReg (k : String) (l : Registry) : Registry :=
  l.filter (fun q => q.1 != k)

/-- The `register` handler (app.py lines 73-116).  Arguments: the form body,
the `get_sheet()` outcome, `time.time()` as `now`, the formatted
`datetime.now()` string, the current registry, and the calling client's
session.  Returns the handler outcome, the new registry, the new session of
the caller, and the list of rows appended to the sheet. -/
def register (form : Form) (sheet : Option Sheet) (now : Nat) (nowStr : String)
    (registry : Registry) (sess : SessionData) :
    RegisterResult × Registry × SessionData × List (List String) :=
  match form.name, form.reg_no with
  | none, _ => (.exception, registry, sess, [])
  | some _, none => (.exception, registry, sess, [])
  | some rawName, some rawReg =>
    let name := pyStrip rawName
    let reg_no := pyStrip rawReg
    if name = "" ∨ reg_no = "" then (.invalidInput, registry, sess, [])
    else
      match sheet with
      | none => (.dbConnectError, registry, sess, [])
      | some s =>
        if s.appendOk then
          (.waiting reg_no,
           insertReg reg_no ⟨name, now, s.newRowIndex⟩ registry,
           { sess with waiting_reg_no := some reg_no },
           [[reg_no, name, "", nowStr]])
        else (.appendError, registry, sess, [])

/-- Outcome of the `check_status` handler. -/
inductive Status where
  /-- `{'status':'linked', ...}`, HTTP 200. -/
  | linked
  /-- `{'status':'error', 'message':'Session expired or invalid.'}`,
  HTTP 200. -/
  | sessionInvalid
  /-- `{'status':'timeout', ...}`, HTTP 408. -/
  | timeout
  /-- `{'status':'waiting', ...}`, HTTP 200. -/
  | waiting
deriving DecidableEq

/-- HTTP status code attached to each `check_status` outcome. -/
def checkHttp : Status → Nat
  | .timeout => 408
  | _ => 200

/-- The `check_status` handler (app.py lines 119-136), run at wall time `now`
against the calling client's session. -/
def check_status (reg_no : String) (now : Nat) (registry : Registry)
    (sess : SessionData) : Status × Registry × SessionData :=
  match List.lookup reg_no registry with
  | none =>
    if sess.linked_reg_no = some reg_no then
      (.linked, registry, { sess with linked_reg_no := none })
    else (.sessionInvalid, registry, sess)
  | some entry =>
    if TIMEOUT_SECONDS < now - entry.timestamp then
      (.timeout, removeReg reg_no registry, { sess with waiting_reg_no := none })
    else (.waiting, registry, sess)

/-- Outcome of the `link_rfid` handler. -/
inductive LinkResult where
  /-- `{'status':'error', 'message':'No active linking session found.'}`,
  HTTP 404. -/
  | noActive
  /-- `{'status':'linked', 'name':..., 'register_number':...}`, HTTP 200. -/
  | linked (name : String) (reg_no : String)
  /-- `{'status':'error', 'message': <sheet error>}`, HTTP 500. -/
  | sheetError (msg : String)
deriving DecidableEq

/-- HTTP status code attached to each `link_rfid` outcome. -/
def linkHttp : LinkResult → Nat
  | .noActive => 404
  | .linked _ _ => 200
  | .sheetError _ => 500

/-- The JSON `message` field of each `link_rfid` outcome. -/
def linkMessage : LinkResult → String
  | .noActive => "No active linking session found."
  | .linked name _ => "Card linked to " ++ name
  | .sheetError msg => msg

/-- Recognises the persistence-failure outcome. -/
def isSheetError : LinkResult → Bool
  | .sheetError _ => true
  | _ => false

/-- `min(WAITING_FOR_SCAN, key=lambda k: WAITING_FOR_SCAN[k]['timestamp'])`
(app.py line 155) on the non-empty dict `p :: rest`: a left fold that keeps
the current minimum and replaces it only on a strictly smaller timestamp, so
it returns the first-inserted entry among those with minimal timestamp. -/
def pyMinEntry (p : String × Entry) (rest : Registry) : String × Entry :=
  rest.foldl (fun cur x => if x.2.timestamp < cur.2.timestamp then x else cur) p

/-- The `link_rfid` handler (app.py lines 141-185).  Arguments: the
`rfid_uid` field of the JSON body (`none` when the key is absent, then
`data.get('rfid_uid','')` yields `''`), the `get_sheet()` outcome seen by the
inner helper, the current registry, and the calling client's session (for the
ESP32 route the caller is the scanning device).  Returns the outcome, the new
registry, the new session of the caller, and the cell writes performed. -/
def link_rfid (rfid_field : Option String) (sheet : Option Sheet)
    (registry : Registry) (sess : SessionData) :
    LinkResult × Registry × SessionData × List CellWrite :=
  let rfid_uid := pyStrip (rfid_field.getD "")
  match registry with
  | [] => (.noActive, [], sess, [])
  | p :: rest =>
    let m := pyMinEntry p rest
    let res := link_uid_to_student sheet m.2.row_index rfid_uid m.2.name
    if res.success then
      (.linked res.payload m.1,
       removeReg m.1 (p :: rest),
       { sess with linked_reg_no := some m.1 },
       res.writes)
    else (.sheetError res.payload, p :: rest, sess, res.writes)

/-- The registry invariant of interest: at most one entry per register
number, i.e. the key list is duplicate-free. -/
abbrev keysNodup (l : Registry) : Prop := (l.map Prod.fst).Nodup

/-- The persistence update of a scan fails: `get_sheet()` returned `None`,
or `update_cell` raised, or the read-back raised. -/
def persistenceFails : Option Sheet → Prop
  | none => True
  | some s => s.updateOk = false ∨ s.readOk = false

/-- The arguments of one `register` request: form body, `get_sheet()`
outcome, `time.time()`, formatted date string. -/
structure RegInput where
  form : Form
  sheet : Option Sheet
  now : Nat
  nowStr : String

/-- State transition of the shared registry (and the caller session) under
one `register` request. -/
def registerStep (st : Registry × SessionData) (i : RegInput) :
    Registry × SessionData :=
  ((register i.form i.sheet i.now i.nowStr st.1 st.2).2.1,
   (register i.form i.sheet i.now i.nowStr st.1 st.2).2.2.1)

/-- Run a sequence of `register` requests against the initially empty
`WAITING_FOR_SCAN` dict. -/
def runRegisters (inputs : List RegInput) : Registry × SessionData :=
  inputs.foldl registerStep ([], ⟨none, none⟩)

/-- A sheet environment where every remote call succeeds: rows are appended
at row 5 and every name cell reads back "Alice". -/
def demoSheet : Sheet := ⟨true, 5, true, true, fun _ => "Alice"⟩

/-- A sheet environment where every remote call succeeds and every name cell
reads back "A". -/
def demoSheetA : Sheet := ⟨true, 5, true, true, fun _ => "A"⟩

/-- A sheet environment where every remote call succeeds and every name cell
reads back "Bob". -/
def demoSheetB : Sheet := ⟨true, 5, true, true, fun _ => "Bob"⟩

/-- A sheet environment where `update_cell` raises. -/
def failSheet : Sheet := ⟨true, 5, false, true, fun _ => "Alice"⟩

/-- A sheet environment where `append_row` raises. -/
def failAppendSheet : Sheet := ⟨false, 5, true, true, fun _ => "Alice"⟩

/-! ### Helper lemmas about the registry operations -/

theorem pyMinEntry_cons (p x : String × Entry) (xs : Registry) :
    pyMinEntry p (x :: xs) =
      pyMinEntry (if x.2.timestamp < p.2.timestamp then x else p) xs := rfl

/-- The entry selected by the Python `min` call is one of the dict entries. -/
theorem pyMinEntry_mem (p : String × Entry) (rest : Registry) :
    pyMinEntry p rest ∈ p :: rest := by
  induction rest generalizing p with
  | nil => simp [pyMinEntry]
  | cons x xs ih =>
    rw [pyMinEntry_cons]
    rcases List.mem_cons.mp (ih (if x.2.timestamp < p.2.timestamp then x else p)) with h | h
    · rw [h]
      split
      · exact List.mem_cons_of_mem _ (List.mem_cons_self _ _)
      · exact List.mem_cons_self _ _
    · exact List.mem_cons_of_mem _ (List.mem_cons_of_mem _ h)

/-- The entry selected by the Python `min` call has minimal timestamp. -/
theorem pyMinEntry_le (p : String × Entry) (rest : Registry) :
    ∀ q ∈ p :: rest, (pyMinEntry p rest).2.timestamp ≤ q.2.timestamp := by
  induction rest generalizing p with
  | nil =>
    intro q hq
    rw [List.mem_singleton] at hq
    rw [hq]
    exact Nat.le_refl _
  | cons x xs ih =>
    intro q hq
    rw [pyMinEntry_cons]
    have hxp : (if x.2.timestamp < p.2.timestamp then x else p).2.timestamp ≤ p.2.timestamp ∧
        (if x.2.timestamp < p.2.timestamp then x else p).2.timestamp ≤ x.2.timestamp := by
      split
      · next h => exact ⟨Nat.le_of_lt h, Nat.le_refl _⟩
      · next h => exact ⟨Nat.le_refl _, Nat.le_of_not_lt h⟩
    rcases List.mem_cons.mp hq with hq | hq
    · calc (pyMinEntry (if x.2.timestamp < p.2.timestamp then x else p) xs).2.timestamp
          ≤ (if x.2.timestamp < p.2.timestamp then x else p).2.timestamp :=
            ih _ _ (List.mem_cons_self _ _)
        _ ≤ q.2.timestamp := hq ▸ hxp.1
    · rcases List.mem_cons.mp hq with hq | hq
      · calc (pyMinEntry (if x.2.timestamp < p.2.timestamp then x else p) xs).2.timestamp
            ≤ (if x.2.timestamp < p.2.timestamp then x else p).2.timestamp :=
              ih _ _ (List.mem_cons_self _ _)
          _ ≤ q.2.timestamp := hq ▸ hxp.2
      · exact ih _ _ (List.mem_cons_of_mem _ hq)

/-- After removing key `k` the dict no longer contains `k`. -/
theorem lookup_removeReg (k : String) (l : Registry) :
    List.lookup k (removeReg k l) = none := by
  induction l with
  | nil => rfl
  | cons q t ih =>
    by_cases h : q.1 = k
    · simpa [removeReg, List.filter_cons, h] using ih
    · simp only [removeReg, List.filter_cons] at ih ⊢
      rw [if_pos (by simpa [bne_iff_ne] using h)]
      simpa [List.lookup, show (k == q.1) = false by simpa [beq_iff_eq] using Ne.symm h]
        using ih

/-- Removing a key that is not in the dict changes nothing. -/
theorem removeReg_eq_self (k : String) (l : Registry)
    (h : k ∉ l.map Prod.fst) : removeReg k l = l := by
  apply List.filter_eq_self.mpr
  intro a ha
  simp only [bne_iff_ne, ne_eq, decide_not]
  intro hak
  exact h (hak ▸ List.mem_map_of_mem Prod.fst ha)

/-- Removing a present key from a duplicate-free dict splits it:
everything else is kept, in order. -/
theorem removeReg_split (l : Registry) (k : String) (e : Entry)
    (hnd : keysNodup l) (hmem : (k, e) ∈ l) :
    ∃ l1 l2, l = l1 ++ (k, e) :: l2 ∧ removeReg k l = l1 ++ l2 := by
  induction l with
  | nil => cases hmem
  | cons q t ih =>
    rw [keysNodup, List.map_cons, List.nodup_cons] at hnd
    rcases List.mem_cons.mp hmem with hq | hq
    · refine ⟨[], t, by rw [← hq]; rfl, ?_⟩
      have hk : k ∉ t.map Prod.fst := by
        have := hnd.1
        rw [← hq] at this
        exact this
      simp only [removeReg, List.filter_cons]
      rw [if_neg (by simp [← hq])]
      simpa [removeReg] using removeReg_eq_self k t hk
    · obtain ⟨l1, l2, hsplit, hrem⟩ := ih hnd.2 hq
      have hqk : q.1 ≠ k := by
        intro hqk
        apply hnd.1
        rw [hqk]
        exact List.mem_map_of_mem Prod.fst hq
      refine ⟨q :: l1, l2, by rw [hsplit]; rfl, ?_⟩
      simp only [removeReg, List.filter_cons]
      rw [if_pos (by simpa [bne_iff_ne] using hqk)]
      simpa [removeReg] using congrArg (q :: ·) hrem

/-- Key list after a dict assignment: unchanged if the key was present,
else the key is appended. -/
theorem keys_insertReg (k : String) (v : Entry) (l : Registry) :
    (insertReg k v l).map Prod.fst =
      if k ∈ l.map Prod.fst then l.map Prod.fst else l.map Prod.fst ++ [k] := by
  induction l with
  | nil => simp [insertReg]
  | cons p t ih =>
    by_cases h : p.1 = k
    · simp [insertReg, h]
    · simp only [insertReg, if_neg h, List.map_cons, ih, List.mem_cons]
      by_cases h2 : k ∈ t.map Prod.fst
      · simp [h2, Ne.symm h]
      · simp [h2, Ne.symm h]

/-- A dict assignment keeps the at-most-one-entry-per-key invariant. -/
theorem insertReg_keysNodup (k : String) (v : Entry) (l : Registry)
    (h : keysNodup l) : keysNodup (insertReg k v l) := by
  rw [keysNodup, keys_insertReg]
  by_cases hk : k ∈ l.map Prod.fst
  · simpa [hk] using h
  · simpa [hk, List.nodup_append] using h

/-- After `WAITING_FOR_SCAN[k] = v`, looking up `k` yields exactly `v`. -/
theorem lookup_insertReg (k : String) (v : Entry) (l : Registry) :
    List.lookup k (insertReg k v l) = some v := by
  induction l with
  | nil => simp [insertReg, List.lookup]
  | cons p t ih =>
    obtain ⟨pk, pv⟩ := p
    by_cases h : pk = k
    · simp [insertReg, h, List.lookup]
    · have hbeq : (k == pk) = false := by simpa [beq_iff_eq] using Ne.symm h
      simp only [insertReg, if_neg h, List.lookup, hbeq]
      exact ih

/-- `register` preserves the at-most-one-entry-per-key invariant. -/
theorem register_keysNodup (form : Form) (sheet : Option Sheet) (now : Nat)
    (nowStr : String) (registry : Registry) (sess : SessionData)
    (h : keysNodup registry) :
    keysNodup (register form sheet now nowStr registry sess).2.1 := by
  obtain ⟨fn, fr⟩ := form
  cases fn with
  | none => exact h
  | some rawName =>
    cases fr with
    | none => exact h
    | some rawReg =>
      simp only [register]
      split
      · exact h
      · split
        · exact h
        · split
          · exact insertReg_keysNodup _ _ _ h
          · exact h

/-- Reduction of `link_rfid` on a non-empty registry when every remote
sheet call succeeds. -/
theorem link_rfid_success_eq (rfid_field : Option String) (s : Sheet)
    (p : String × Entry) (rest : Registry) (sess : SessionData)
    (hup : s.updateOk = true) (hrd : s.readOk = true) :
    link_rfid rfid_field (some s) (p :: rest) sess =
      (.linked (s.cellName (pyMinEntry p rest).2.row_index) (pyMinEntry p rest).1,
       removeReg (pyMinEntry p rest).1 (p :: rest),
       { sess with linked_reg_no := some (pyMinEntry p rest).1 },
       [⟨(pyMinEntry p rest).2.row_index, RFID_UID_COLUMN,
         pyStrip (rfid_field.getD "")⟩]) := by
  simp [link_rfid, link_uid_to_student, hup, hrd]

/-- Folding any sequence of `register` requests preserves the registry
invariant. -/
theorem runRegisters_aux (inputs : List RegInput) :
    ∀ st : Registry × SessionData, keysNodup st.1 →
      keysNodup (inputs.foldl registerStep st).1 := by
  induction inputs with
  | nil => intro st h; exact h
  | cons i t ih =>
    intro st h
    exact ih _ (register_keysNodup i.form i.sheet i.now i.nowStr st.1 st.2 h)

/-! ### The claims -/

/-- Claim C1 (code divergence): `link_rfid` writes the Linked signal
`session['linked_reg_no']` into the Flask session of the client that posted
the scan (the ESP32 device), not into the browser session that submitted the
registration.  In the scenario below the browser session registers "R1" (its
session then holds `waiting_reg_no = "R1"` and no linked signal), the device
session posts the scan, which succeeds and removes the entry - and then the
browser session's FIRST `check_status` poll for "R1" returns the
session-expired error rather than Linked, while the Linked signal sits in
the device session, which never polls. -/
theorem C1_signal_in_scanner_session :
    let browser0 : SessionData := ⟨none, none⟩
    let device0 : SessionData := ⟨none, none⟩
    let r1 := register ⟨some "Alice", some "R1"⟩ (some demoSheet) 0 "d" [] browser0
    let browser1 := r1.2.2.1
    let r2 := link_rfid (some "UID123") (some demoSheet) r1.2.1 device0
    let r3 := check_status "R1" 1 r2.2.1 browser1
    r1.1 = .waiting "R1" ∧
    r2.1 = .linked "Alice" "R1" ∧
    browser1 = ⟨some "R1", none⟩ ∧
    r2.2.2.1.linked_reg_no = some "R1" ∧
    r3.1 = .sessionInvalid := by
  decide

/-- Claim C2 (code divergence): `link_rfid` applies no timeout check when
resolving a scan - it never reads the clock at all.  Below the single
pending entry arrived at time 0 with `TIMEOUT_SECONDS = 300`, so at wall
time 301 it is expired (301 - 0 > 300); the scan nevertheless links it
(this holds at every wall time, since `link_rfid` takes no time input)
instead of evicting it and returning the no-active-session failure. -/
theorem C2_expired_entry_still_linked :
    TIMEOUT_SECONDS < 301 - (⟨"Bob", 0, 5⟩ : Entry).timestamp ∧
    (link_rfid (some "UID123") (some demoSheetB) [("R1", ⟨"Bob", 0, 5⟩)]
        ⟨none, none⟩).1 = .linked "Bob" "R1" ∧
    (link_rfid (some "UID123") (some demoSheetB) [("R1", ⟨"Bob", 0, 5⟩)]
        ⟨none, none⟩).1 ≠ .noActive ∧
    (link_rfid (some "UID123") (some demoSheetB) [("R1", ⟨"Bob", 0, 5⟩)]
        ⟨none, none⟩).2.1 = [] := by
  decide

/-- Claim C3: on any non-empty registry, when the persistence calls succeed,
a scan resolves the entry selected by the Python `min` call - a pending
entry of minimal arrival timestamp - regardless of which client posted the
scan; exactly that one entry is removed and every other pending entry stays
in the registry unchanged. -/
theorem C3_scan_resolves_oldest (rfid_field : Option String) (s : Sheet)
    (p : String × Entry) (rest : Registry) (sess : SessionData)
    (hup : s.updateOk = true) (hrd : s.readOk = true)
    (hnd : keysNodup (p :: rest)) :
    pyMinEntry p rest ∈ p :: rest ∧
    (∀ q ∈ p :: rest, (pyMinEntry p rest).2.timestamp ≤ q.2.timestamp) ∧
    (link_rfid rfid_field (some s) (p :: rest) sess).1 =
      .linked (s.cellName (pyMinEntry p rest).2.row_index)
        (pyMinEntry p rest).1 ∧
    (link_rfid rfid_field (some s) (p :: rest) sess).2.1.length + 1 =
      (p :: rest).length ∧
    (∀ q ∈ p :: rest, q.1 ≠ (pyMinEntry p rest).1 →
      q ∈ (link_rfid rfid_field (some s) (p :: rest) sess).2.1) ∧
    (∀ q ∈ (link_rfid rfid_field (some s) (p :: rest) sess).2.1,
      q ∈ p :: rest ∧ q ≠ pyMinEntry p rest) := by
  have heq := link_rfid_success_eq rfid_field s p rest sess hup hrd
  have h1 : (link_rfid rfid_field (some s) (p :: rest) sess).1 =
      .linked (s.cellName (pyMinEntry p rest).2.row_index)
        (pyMinEntry p rest).1 := by rw [heq]
  have h2 : (link_rfid rfid_field (some s) (p :: rest) sess).2.1 =
      removeReg (pyMinEntry p rest).1 (p :: rest) := by rw [heq]
  have hm := pyMinEntry_mem p rest
  have hmm : ((pyMinEntry p rest).1, (pyMinEntry p rest).2) ∈ p :: rest := hm
  obtain ⟨l1, l2, hsplit, hrem⟩ :=
    removeReg_split (p :: rest) (pyMinEntry p rest).1 (pyMinEntry p rest).2
      hnd hmm
  refine ⟨hm, pyMinEntry_le p rest, h1, ?_, ?_, ?_⟩
  · rw [h2, hrem, hsplit]
    simp [List.length_append]
    omega
  · intro q hq hne
    rw [h2]
    exact List.mem_filter.mpr ⟨hq, by simpa [bne_iff_ne] using hne⟩
  · intro q hq
    rw [h2] at hq
    have hf := List.mem_filter.mp hq
    refine ⟨hf.1, fun hqm => ?_⟩
    have hne : q.1 ≠ (pyMinEntry p rest).1 := by simpa [bne_iff_ne] using hf.2
    exact hne (by rw [hqm])

/-- Witness for C3 at the spec scenario: "A"/"R1" at t=0, "B"/"R2" at t=10,
one scan: R1 is resolved and R2 remains pending. -/
theorem C3_scan_resolves_oldest_witness :
    (link_rfid (some "UID123") (some demoSheetA)
        [("R1", ⟨"A", 0, 5⟩), ("R2", ⟨"B", 10, 6⟩)] ⟨none, none⟩).1 =
      .linked (demoSheetA.cellName
          (pyMinEntry ("R1", ⟨"A", 0, 5⟩) [("R2", ⟨"B", 10, 6⟩)]).2.row_index)
        (pyMinEntry ("R1", ⟨"A", 0, 5⟩) [("R2", ⟨"B", 10, 6⟩)]).1 ∧
    ("R2", (⟨"B", 10, 6⟩ : Entry)) ∈
      (link_rfid (some "UID123") (some demoSheetA)
        [("R1", ⟨"A", 0, 5⟩), ("R2", ⟨"B", 10, 6⟩)] ⟨none, none⟩).2.1 :=
  ⟨(C3_scan_resolves_oldest (some "UID123") demoSheetA ("R1", ⟨"A", 0, 5⟩)
      [("R2", ⟨"B", 10, 6⟩)] ⟨none, none⟩ rfl rfl (by decide)).2.2.1,
   (C3_scan_resolves_oldest (some "UID123") demoSheetA ("R1", ⟨"A", 0, 5⟩)
      [("R2", ⟨"B", 10, 6⟩)] ⟨none, none⟩ rfl rfl (by decide)).2.2.2.2.1
     ("R2", ⟨"B", 10, 6⟩) (by decide) (by decide)⟩

/-- Claim C4: when the persistence update fails during scan resolution, the
registry is returned exactly as it was (same entries, names, timestamps and
row handles, so entry count unchanged and a retry can still resolve them),
the caller session is untouched, and the outcome is the sheet-error response
with HTTP 500. -/
theorem C4_persistence_failure_leaves_entry (rfid_field : Option String)
    (sheet : Option Sheet) (p : String × Entry) (rest : Registry)
    (sess : SessionData) (hfail : persistenceFails sheet) :
    isSheetError (link_rfid rfid_field sheet (p :: rest) sess).1 = true ∧
    linkHttp (link_rfid rfid_field sheet (p :: rest) sess).1 = 500 ∧
    (link_rfid rfid_field sheet (p :: rest) sess).2.1 = p :: rest ∧
    (link_rfid rfid_field sheet (p :: rest) sess).2.2.1 = sess := by
  cases sheet with
  | none =>
    refine ⟨?_, ?_, ?_, ?_⟩ <;>
      simp [link_rfid, link_uid_to_student, isSheetError, linkHttp]
  | some s =>
    by_cases hu : s.updateOk = true
    · have hr : s.readOk = false := by
        rcases hfail with h | h
        · simp [hu] at h
        · exact h
      refine ⟨?_, ?_, ?_, ?_⟩ <;>
        simp [link_rfid, link_uid_to_student, hu, hr, isSheetError, linkHttp]
    · have hu' : s.updateOk = false := by simpa using hu
      refine ⟨?_, ?_, ?_, ?_⟩ <;>
        simp [link_rfid, link_uid_to_student, hu', isSheetError, linkHttp]

/-- Witness for C4: a scan against one pending entry while `update_cell`
raises leaves the entry in place and reports HTTP 500. -/
theorem C4_persistence_failure_witness :
    isSheetError (link_rfid (some "UID123") (some failSheet)
        [("R1", ⟨"Bob", 0, 5⟩)] ⟨none, none⟩).1 = true ∧
    linkHttp (link_rfid (some "UID123") (some failSheet)
        [("R1", ⟨"Bob", 0, 5⟩)] ⟨none, none⟩).1 = 500 ∧
    (link_rfid (some "UID123") (some failSheet)
        [("R1", ⟨"Bob", 0, 5⟩)] ⟨none, none⟩).2.1 = [("R1", ⟨"Bob", 0, 5⟩)] ∧
    (link_rfid (some "UID123") (some failSheet)
        [("R1", ⟨"Bob", 0, 5⟩)] ⟨none, none⟩).2.2.1 = ⟨none, none⟩ :=
  C4_persistence_failure_leaves_entry (some "UID123") (some failSheet)
    ("R1", ⟨"Bob", 0, 5⟩) [] ⟨none, none⟩ (Or.inl rfl)

/-- Claim C5: a pending registration aged strictly past the timeout is
evicted by the first `check_status` poll after expiry, which returns Timeout
with HTTP 408; the entry is then absent from the registry, so any later poll
for the same register number (at any wall time, with any session) does not
return Timeout again. -/
theorem C5_timeout_evicts_once (reg_no : String) (now now2 : Nat)
    (registry : Registry) (sess sess2 : SessionData) (e : Entry)
    (hl : List.lookup reg_no registry = some e)
    (hexp : TIMEOUT_SECONDS < now - e.timestamp) :
    (check_status reg_no now registry sess).1 = .timeout ∧
    checkHttp (check_status reg_no now registry sess).1 = 408 ∧
    List.lookup reg_no (check_status reg_no now registry sess).2.1 = none ∧
    (check_status reg_no now2
        (check_status reg_no now registry sess).2.1 sess2).1 ≠ .timeout := by
  have heq : check_status reg_no now registry sess =
      (.timeout, removeReg reg_no registry,
       { sess with waiting_reg_no := none }) := by
    unfold check_status
    simp only [hl]
    rw [if_pos hexp]
  refine ⟨by rw [heq], by rw [heq]; rfl, ?_, ?_⟩
  · rw [heq]
    exact lookup_removeReg reg_no registry
  · rw [heq]
    show (check_status reg_no now2 (removeReg reg_no registry) sess2).1 ≠
      .timeout
    unfold check_status
    simp only [lookup_removeReg]
    split <;> simp

/-- Witness for C5: an entry registered at t=0 polled at t=301 with timeout
300 is evicted with Timeout/408, and a second poll no longer times out. -/
theorem C5_timeout_evicts_once_witness :
    (check_status "R2" 301 [("R2", ⟨"Bob", 0, 5⟩)] ⟨some "R2", none⟩).1 =
      .timeout ∧
    checkHttp (check_status "R2" 301 [("R2", ⟨"Bob", 0, 5⟩)]
        ⟨some "R2", none⟩).1 = 408 ∧
    List.lookup "R2" (check_status "R2" 301 [("R2", ⟨"Bob", 0, 5⟩)]
        ⟨some "R2", none⟩).2.1 = none ∧
    (check_status "R2" 302 (check_status "R2" 301 [("R2", ⟨"Bob", 0, 5⟩)]
        ⟨some "R2", none⟩).2.1 ⟨none, none⟩).1 ≠ .timeout :=
  C5_timeout_evicts_once "R2" 301 302 [("R2", ⟨"Bob", 0, 5⟩)]
    ⟨some "R2", none⟩ ⟨none, none⟩ ⟨"Bob", 0, 5⟩ (by decide) (by decide)

/-- Claim C6: `register` fails without mutating the registry in both failure
cases.  If a field is empty after stripping, the result is the invalid-input
error with no appended row and no registry change; if the fields are valid
but the append raises, the handler aborts with the append error before the
registry insert, again with no appended row - so no registry entry is
created without a backing persisted record. -/
theorem C6_register_failure_no_mutation (rawName rawReg : String) (s : Sheet)
    (now : Nat) (nowStr : String) (registry : Registry) (sess : SessionData)
    (happend : s.appendOk = false) :
    (register ⟨some rawName, some rawReg⟩ (some s) now nowStr registry
        sess).2.1 = registry ∧
    (register ⟨some rawName, some rawReg⟩ (some s) now nowStr registry
        sess).2.2.2 = ([] : List (List String)) ∧
    (pyStrip rawName = "" ∨ pyStrip rawReg = "" →
      (register ⟨some rawName, some rawReg⟩ (some s) now nowStr registry
        sess).1 = .invalidInput) ∧
    (pyStrip rawName ≠ "" → pyStrip rawReg ≠ "" →
      (register ⟨some rawName, some rawReg⟩ (some s) now nowStr registry
        sess).1 = .appendError) := by
  by_cases hval : pyStrip rawName = "" ∨ pyStrip rawReg = ""
  · have heq : register ⟨some rawName, some rawReg⟩ (some s) now nowStr
        registry sess = (.invalidInput, registry, sess, []) := by
      simp only [register]
      rw [if_pos hval]
    exact ⟨by rw [heq], by rw [heq], fun _ => by rw [heq],
      fun hn hr => absurd hval (by simp [hn, hr])⟩
  · have heq : register ⟨some rawName, some rawReg⟩ (some s) now nowStr
        registry sess = (.appendError, registry, sess, []) := by
      simp only [register]
      rw [if_neg hval]
      simp [happend]
    exact ⟨by rw [heq], by rw [heq], fun h => absurd h hval,
      fun _ _ => by rw [heq]⟩

/-- Witness for C6: a whitespace-only name is rejected as invalid input with
the registry left empty, and a valid form whose append raises aborts with
the append error. -/
theorem C6_register_failure_witness :
    (register ⟨some "   ", some "R1"⟩ (some failAppendSheet) 0 "d" []
        ⟨none, none⟩).1 = .invalidInput ∧
    (register ⟨some "   ", some "R1"⟩ (some failAppendSheet) 0 "d" []
        ⟨none, none⟩).2.1 = [] ∧
    (register ⟨some "Bob", some "R9"⟩ (some failAppendSheet) 0 "d" []
        ⟨none, none⟩).1 = .appendError :=
  ⟨(C6_register_failure_no_mutation "   " "R1" failAppendSheet 0 "d" []
      ⟨none, none⟩ rfl).2.2.1 (Or.inl (by decide)),
   (C6_register_failure_no_mutation "   " "R1" failAppendSheet 0 "d" []
      ⟨none, none⟩ rfl).1,
   (C6_register_failure_no_mutation "Bob" "R9" failAppendSheet 0 "d" []
      ⟨none, none⟩ rfl).2.2.2 (by decide) (by decide)⟩

/-- Claim C7: a scan arriving while the registry is empty returns the
no-active-session error with HTTP 404 and leaves all state unchanged. -/
theorem C7_empty_registry_404 (rfid_field : Option String)
    (sheet : Option Sheet) (sess : SessionData) :
    link_rfid rfid_field sheet [] sess = (.noActive, [], sess, []) ∧
    linkHttp .noActive = 404 ∧
    linkMessage .noActive = "No active linking session found." :=
  ⟨rfl, rfl, rfl⟩

/-- Claim C8: every sequence of `register` requests keeps at most one
registry entry per register number, and a dict assignment to a pending key
overwrites the prior entry - the subsequent lookup returns exactly the new
entry, i.e. its name, arrival timestamp and row handle. -/
theorem C8_at_most_one_entry :
    (∀ inputs : List RegInput, keysNodup (runRegisters inputs).1) ∧
    (∀ (l : Registry) (k : String) (v : Entry),
      List.lookup k (insertReg k v l) = some v) :=
  ⟨fun inputs => runRegisters_aux inputs ([], ⟨none, none⟩) (by decide),
   fun l k v => lookup_insertReg k v l⟩

/-- Claim C9: when the name or reg_no form field is absent entirely,
`register` raises an uncaught exception (`None.strip()`) instead of
returning the invalid-input response, leaving the registry unchanged; the
validation branch is reachable only when both fields are present. -/
theorem C9_missing_field_raises (form : Form) (sheet : Option Sheet)
    (now : Nat) (nowStr : String) (registry : Registry) (sess : SessionData)
    (h : form.name = none ∨ form.reg_no = none) :
    (register form sheet now nowStr registry sess).1 = .exception ∧
    (register form sheet now nowStr registry sess).1 ≠ .invalidInput ∧
    (register form sheet now nowStr registry sess).2.1 = registry := by
  obtain ⟨fn, fr⟩ := form
  rcases h with h | h
  · have hfn : fn = none := h
    subst hfn
    exact ⟨rfl, fun hc => RegisterResult.noConfusion hc, rfl⟩
  · have hfr : fr = none := h
    subst hfr
    cases fn <;> exact ⟨rfl, fun hc => RegisterResult.noConfusion hc, rfl⟩

/-- Witness for C9: a request with no name field yields the exception
outcome, not the invalid-input response. -/
theorem C9_missing_field_raises_witness :
    (register ⟨none, some "R1"⟩ (some demoSheet) 0 "d" [] ⟨none, none⟩).1 =
      .exception :=
  (C9_missing_field_raises ⟨none, some "R1"⟩ (some demoSheet) 0 "d" []
    ⟨none, none⟩ (Or.inl rfl)).1

/-- Claim C10: `link_rfid` performs no validation of the scanned code: a
request whose rfid_uid field strips to the empty string (or is absent) still
selects and links the oldest pending entry, and writes the empty string into
the persistence record. -/
theorem C10_empty_uid_still_links (rfid_field : Option String) (s : Sheet)
    (p : String × Entry) (rest : Registry) (sess : SessionData)
    (hup : s.updateOk = true) (hrd : s.readOk = true)
    (hempty : pyStrip (rfid_field.getD "") = "") :
    (link_rfid rfid_field (some s) (p :: rest) sess).1 =
      .linked (s.cellName (pyMinEntry p rest).2.row_index)
        (pyMinEntry p rest).1 ∧
    (link_rfid rfid_field (some s) (p :: rest) sess).2.2.2 =
      [⟨(pyMinEntry p rest).2.row_index, RFID_UID_COLUMN, ""⟩] := by
  have heq := link_rfid_success_eq rfid_field s p rest sess hup hrd
  refine ⟨by rw [heq], ?_⟩
  rw [heq, hempty]

/-- Witness for C10: a whitespace-only rfid_uid still links the pending
entry and writes "" to the sheet. -/
theorem C10_empty_uid_still_links_witness :
    (link_rfid (some "   ") (some demoSheet) [("R1", ⟨"Alice", 0, 5⟩)]
        ⟨none, none⟩).1 =
      .linked (demoSheet.cellName
          (pyMinEntry ("R1", ⟨"Alice", 0, 5⟩) []).2.row_index)
        (pyMinEntry ("R1", ⟨"Alice", 0, 5⟩) []).1 ∧
    (link_rfid (some "   ") (some demoSheet) [("R1", ⟨"Alice", 0, 5⟩)]
        ⟨none, none⟩).2.2.2 =
      [⟨(pyMinEntry ("R1", ⟨"Alice", 0, 5⟩) []).2.row_index,
        RFID_UID_COLUMN, ""⟩] :=
  C10_empty_uid_still_links (some "   ") demoSheet ("R1", ⟨"Alice", 0, 5⟩)
    [] ⟨none, none⟩ rfl rfl (by decide)

end Hostweb
